import Mathlib

/-!
Verification development for the Fuel Dominion repository: a shallow
embedding of the client-side game controller, UI controller and Three.js
scene builders found in the JavaScript sources of the repository, together with
a spec-modelled core game state (the Python backend sources are not part
of the repository snapshot; only their documentation is).
-/

namespace FuelDominion

/-- Integer grid position, as used both by the backend snapshot JSON and
the frontend. -/
structure Pos where
  x : Int
  y : Int
deriving DecidableEq

/-- The two agent identities. The spec calls the second agent `Reactive`;
the code calls it `instinct`. -/
inductive AgentId where
  | strategist
  | instinct
deriving DecidableEq

/-- Cell terrain classification, from spec section 3. -/
inductive Cell where
  | openCell
  | wall
  | door
  | window
  | tree
  | fuelMarker
  | nodeMarker
deriving DecidableEq

/-- Modelled from the spec: walls and (closed) doors block movement;
windows and trees block movement; open and marker cells are traversable. -/
def traversable : Cell → Bool
  | Cell.openCell => true
  | Cell.fuelMarker => true
  | Cell.nodeMarker => true
  | _ => false

/-- Modelled from the spec: an agent has a position and a fuel level. -/
structure Agent where
  pos : Pos
  fuel : Int
deriving DecidableEq

/-- Modelled from the spec: a fuel station with capacity and current fill. -/
structure Station where
  pos : Pos
  capacity : Int
  current : Int
deriving DecidableEq

/-- Modelled from the spec: a capturable light node with an owner. -/
structure LNode where
  pos : Pos
  owner : Option AgentId
deriving DecidableEq

/-- Modelled from the spec: the configuration surface consumed by the core
(grid size, max turns, fuel constants, regeneration rule). -/
structure Config where
  gridSize : Int
  maxTurns : Int
  moveCost : Int
  refuelAmount : Int
  maxFuel : Int
  regenAmount : Int
  regenPeriod : Int
deriving DecidableEq

/-- Modelled from the spec: the aggregate GameState (backend
`game_state.py` is absent from the repository snapshot). -/
structure GState where
  strat : Agent
  inst : Agent
  stations : List Station
  nodes : List LNode
  terrain : List (List Cell)
  turn : Int
  active : AgentId
deriving DecidableEq

/-- Movement directions. -/
inductive Direction where
  | north
  | south
  | east
  | west
deriving DecidableEq

/-- The tagged action variant from spec section 4.2. -/
inductive Action where
  | move (d : Direction)
  | refuel
  | controlNode
  | wait
deriving DecidableEq

def otherId : AgentId → AgentId
  | AgentId.strategist => AgentId.instinct
  | AgentId.instinct => AgentId.strategist

def agentOf (s : GState) : AgentId → Agent
  | AgentId.strategist => s.strat
  | AgentId.instinct => s.inst

def withAgent (s : GState) (id : AgentId) (a : Agent) : GState :=
  match id with
  | AgentId.strategist => { s with strat := a }
  | AgentId.instinct => { s with inst := a }

def destOf (p : Pos) : Direction → Pos
  | Direction.north => { p with y := p.y - 1 }
  | Direction.south => { p with y := p.y + 1 }
  | Direction.east => { p with x := p.x + 1 }
  | Direction.west => { p with x := p.x - 1 }

/-- Terrain lookup; out-of-range cells read as walls (they are never
traversable and the bounds check rejects them anyway). -/
def terrainAt (g : List (List Cell)) (p : Pos) : Cell :=
  if h : 0 ≤ p.y ∧ p.y.toNat < g.length then
    let row := g.get ⟨p.y.toNat, h.2⟩
    if h2 : 0 ≤ p.x ∧ p.x.toNat < row.length then row.get ⟨p.x.toNat, h2.2⟩
    else Cell.wall
  else Cell.wall

def inBounds (cfg : Config) (p : Pos) : Bool :=
  decide (0 ≤ p.x) && decide (p.x < cfg.gridSize) &&
  decide (0 ≤ p.y) && decide (p.y < cfg.gridSize)

def stationAt (s : GState) (p : Pos) : Option Station :=
  s.stations.find? (fun st => decide (st.pos = p))

def nodeAt (s : GState) (p : Pos) : Option LNode :=
  s.nodes.find? (fun n => decide (n.pos = p))

/-- Modelled from the spec (backend `game_state.py` is absent): legality of
an action for an agent.  `Move` is legal iff the destination is in-bounds,
traversable, unoccupied by the other agent, and `fuel ≥ moveCost`.
`Refuel` is legal iff the cell of the agent is an active fuel station (the spec
leaves on-cell vs adjacent open; the on-cell rule is modelled).
`ControlNode` is legal iff the cell of the agent is a light node not already
controlled by this agent.  `Wait` is always legal. -/
def legalAction (cfg : Config) (s : GState) (id : AgentId) : Action → Bool
  | Action.move d =>
    let a := agentOf s id
    let q := destOf a.pos d
    inBounds cfg q && traversable (terrainAt s.terrain q) &&
    decide (q ≠ (agentOf s (otherId id)).pos) && decide (cfg.moveCost ≤ a.fuel)
  | Action.refuel =>
    match stationAt s (agentOf s id).pos with
    | some st => decide (0 < st.current)
    | none => false
  | Action.controlNode =>
    match nodeAt s (agentOf s id).pos with
    | some n => decide (n.owner ≠ some id)
    | none => false
  | Action.wait => true

/-- Modelled from the spec: end-of-turn bookkeeping — advance `turn`, flip
`activePlayer`, and apply the capped fuel-station regeneration when the
regeneration tick is due. -/
def advanceTurn (cfg : Config) (s : GState) : GState :=
  let t := s.turn + 1
  let s' := { s with turn := t, active := otherId s.active }
  if t % cfg.regenPeriod = 0 then
    { s' with stations :=
        s'.stations.map (fun st =>
          { st with current := min (st.current + cfg.regenAmount) st.capacity }) }
  else s'

/-- Modelled from the spec: `apply` re-validates the action (defense in
depth) and fails on an illegal action; otherwise it deducts fuel for Move,
transfers node ownership for ControlNode, grants fuel up to the
configured maximum for Refuel (depleting the station), then advances the
turn. -/
def applyAction (cfg : Config) (s : GState) (id : AgentId) (act : Action) :
    Option GState :=
  if legalAction cfg s id act then
    match act with
    | Action.move d =>
      let a := agentOf s id
      some (advanceTurn cfg
        (withAgent s id { a with pos := destOf a.pos d, fuel := a.fuel - cfg.moveCost }))
    | Action.refuel =>
      match stationAt s (agentOf s id).pos with
      | some st =>
        let gain := min cfg.refuelAmount st.current
        let a := agentOf s id
        let s1 := withAgent s id { a with fuel := min (a.fuel + gain) cfg.maxFuel }
        let s2 := { s1 with stations := s1.stations.map (fun t =>
                      if t = st then { t with current := t.current - gain } else t) }
        some (advanceTurn cfg s2)
      | none => none
    | Action.controlNode =>
      some (advanceTurn cfg
        { s with nodes :=
            s.nodes.map (fun n =>
              if n.pos = (agentOf s id).pos then { n with owner := some id } else n) })
    | Action.wait => some (advanceTurn cfg s)
  else none

/-- Reachability: the states obtainable from an initial state by applying
only legal actions of the currently active player. -/
inductive Reachable (cfg : Config) (init : GState) : GState → Prop where
  | refl : Reachable cfg init init
  | step {s s' : GState} {a : Action} :
      Reachable cfg init s →
      applyAction cfg s s.active a = some s' →
      Reachable cfg init s'

/-- The fuel/station sanity conditions that hold of a freshly constructed
state (spec: `InvalidConfiguration` rejects negative fuel constants;
station `current ∈ 0..capacity`). -/
def FuelInv (s : GState) : Prop :=
  0 ≤ s.strat.fuel ∧ 0 ≤ s.inst.fuel ∧
  ∀ st ∈ s.stations, 0 ≤ st.current ∧ 0 ≤ st.capacity

instance (s : GState) : Decidable (FuelInv s) := by
  unfold FuelInv; infer_instance

/-- Valid match setup: non-negative initial fuel and stations, and
non-negative configured fuel constants. -/
def ValidInit (cfg : Config) (s : GState) : Prop :=
  FuelInv s ∧ 0 ≤ cfg.refuelAmount ∧ 0 ≤ cfg.regenAmount ∧ 0 ≤ cfg.maxFuel

instance (cfg : Config) (s : GState) : Decidable (ValidInit cfg s) := by
  unfold ValidInit; infer_instance

/-- Number of light nodes controlled by an agent (recomputed from node
ownership, the authoritative source per the spec). -/
def countNodes (s : GState) (id : AgentId) : Nat :=
  (s.nodes.filter (fun n => decide (n.owner = some id))).length

/-- Match outcome. -/
inductive Outcome where
  | strategistWins
  | instinctWins
  | draw
deriving DecidableEq

/-- Modelled from the spec (backend `game_state.py` is absent):
`winner()` — by nodes controlled, descending; ties broken by remaining
fuel, descending; full tie → Draw. -/
def winner (s : GState) : Outcome :=
  let ns := countNodes s AgentId.strategist
  let ni := countNodes s AgentId.instinct
  if ns > ni then Outcome.strategistWins
  else if ni > ns then Outcome.instinctWins
  else if s.strat.fuel > s.inst.fuel then Outcome.strategistWins
  else if s.inst.fuel > s.strat.fuel then Outcome.instinctWins
  else Outcome.draw

/-- Modelled from the spec: terminal when the turn cap is reached or one
agent controls all light nodes. -/
def isTerminal (cfg : Config) (s : GState) : Bool :=
  decide (cfg.maxTurns ≤ s.turn) ||
  decide (countNodes s AgentId.strategist = s.nodes.length ∧ s.nodes ≠ []) ||
  decide (countNodes s AgentId.instinct = s.nodes.length ∧ s.nodes ≠ [])


/-! ## MCTS final move selection (spec-modelled) -/

/-- Modelled from the spec (backend `mcts_ai.py` is absent from the
repository snapshot): the statistics of one root child of the MCTS tree. -/
structure MChild where
  action : Action
  visitCount : Nat
  totalReward : ℚ
deriving DecidableEq

/-- Mean rollout reward of a child. -/
def meanReward (c : MChild) : ℚ := c.totalReward / (c.visitCount : ℚ)

/-- Modelled from the spec: after the simulation budget is exhausted the
search returns the root child with the highest `visitCount` (first child
wins ties, scanning in order). -/
def selectMostVisited : List MChild → Option MChild
  | [] => none
  | c :: cs => some (cs.foldl (fun best x => if best.visitCount < x.visitCount then x else best) c)

/-- The competing rule the spec rules out: highest mean reward. -/
def selectHighestMean : List MChild → Option MChild
  | [] => none
  | c :: cs => some (cs.foldl (fun best x => if meanReward best < meanReward x then x else best) c)

/-- A concrete root-children list on which the two selection rules
disagree: the first child has many visits but low mean reward. -/
def demoChildren : List MChild :=
  [{ action := Action.wait, visitCount := 10, totalReward := 5 },
   { action := Action.refuel, visitCount := 2, totalReward := 4 }]

/-! ## Frontend: game controller and UI controller (main.js / ui.js) -/

namespace Client

/-- The `game_over` event payload (`data` in `handleGameOver`): winner
string, final snapshot stats, and both final scores. -/
structure AgentStats where
  nodes_controlled : Int
  fuel : Int
  score : Int
deriving DecidableEq

structure FinalAgents where
  strategist : AgentStats
  instinct : AgentStats
deriving DecidableEq

structure GameOverData where
  winner : String
  finalStrategist : AgentStats
  finalInstinct : AgentStats
  strategist_score : Int
  instinct_score : Int
deriving DecidableEq

/-- What the game-over overlay displays. -/
structure GameOverDisplay where
  winnerText : String
  winnerColor : String
  finalStrategistNodes : Int
  finalInstinctNodes : Int
  finalStrategistScore : Int
  finalInstinctScore : Int
deriving DecidableEq

/-- Embeds `UIController.showGameOver` from ui.js: pick the winner banner from
`data.winner` and copy the final stats out of the payload. -/
def showGameOver (data : GameOverData) : GameOverDisplay :=
  let wt :=
    if data.winner == "strategist" then ("⚙️ UNIT S (STRATEGIST) WINS", "#00ff88")
    else if data.winner == "instinct" then ("🎯 UNIT I (INSTINCT) WINS", "#ff00ff")
    else ("🤝 DRAW - EQUAL PERFORMANCE", "#ffaa00")
  { winnerText := wt.1
    winnerColor := wt.2
    finalStrategistNodes := data.finalStrategist.nodes_controlled
    finalInstinctNodes := data.finalInstinct.nodes_controlled
    finalStrategistScore := data.strategist_score
    finalInstinctScore := data.instinct_score }

/-- The action payload consumed by `UIController.formatAction`; fields are
present or absent depending on the action type, modelled as one record. -/
structure JSAction where
  type : String
  agent : String
  toPos : Pos
  fuel_gained : Int
  new_fuel : Int
  position : Pos
  from_agent : String
deriving DecidableEq

/-- The agent naming used throughout ui.js: the strategist is Unit S and
any other agent string is Unit I. -/
def unitName (agent : String) : String :=
  if agent == "strategist" then "Unit S" else "Unit I"

/-- Embeds `UIController.formatAction` from ui.js (the unused `aiInfo`
argument is omitted). -/
def formatAction (action : JSAction) : String :=
  let agentName := unitName action.agent
  if action.type == "move" then
    agentName ++ " moved to (" ++ toString action.toPos.x ++ ", " ++ toString action.toPos.y ++ ")"
  else if action.type == "refuel" then
    agentName ++ " refueled +" ++ toString action.fuel_gained ++ " fuel → " ++ toString action.new_fuel
  else if action.type == "control_node" then
    agentName ++ " controlled light node at (" ++ toString action.position.x ++ ", " ++ toString action.position.y ++ ")"
  else if action.type == "capture_node" then
    agentName ++ " captured node from " ++ unitName action.from_agent ++ " at (" ++ toString action.position.x ++ ", " ++ toString action.position.y ++ ")"
  else if action.type == "wait" then
    agentName ++ " is waiting..."
  else
    agentName ++ " performed " ++ action.type

/-- WebSocket client connection state of `GameController` (`this.ws` being
non-null is modelled by `wsOpen`). -/
structure WSState where
  isConnected : Bool
  wsOpen : Bool
deriving DecidableEq

/-- Result of a button handler: JSON messages sent over the socket, and
log entries added. -/
structure SendResult where
  sent : List String
  log : List String
deriving DecidableEq

/-- The wire form of the start command, `JSON.stringify` of the command
object. -/
def startJson : String := "\x7b\"command\":\"start\"\x7d"

/-- The wire form of the reset command. -/
def resetJson : String := "\x7b\"command\":\"reset\"\x7d"

/-- Embeds `GameController.startGame` from main.js. -/
def startGame (st : WSState) : SendResult :=
  if st.isConnected && st.wsOpen then
    { sent := [startJson], log := [] }
  else
    { sent := [], log := ["Cannot start game - not connected to server."] }

/-- Embeds `GameController.resetGame` from main.js. -/
def resetGame (st : WSState) : SendResult :=
  if st.isConnected && st.wsOpen then
    { sent := [resetJson], log := [] }
  else
    { sent := [], log := [] }

/-- The text of one log entry: `[timestamp] message`. -/
def logEntryText (now msg : String) : String :=
  "[" ++ now ++ "] " ++ msg

/-- The trailing `while (children.length > 20) removeChild(firstChild)`
loop of `UIController.addLogEntry`. -/
def trimLog (l : List String) : List String :=
  if _h : 20 < l.length then trimLog l.tail else l
termination_by l.length
decreasing_by
  simp only [List.length_tail]
  omega

/-- Embeds `UIController.addLogEntry` from ui.js: append the stamped entry, then
drop oldest entries while more than 20 remain. -/
def addLogEntry (log : List String) (now msg : String) : List String :=
  trimLog (log ++ [logEntryText now msg])

end Client

/-! ## Frontend: snapshot shape and Three.js scene state -/

/-- A fuel station element of a state snapshot. -/
structure SnapStation where
  position : Pos
  is_active : Bool
deriving DecidableEq

/-- A light node element of a state snapshot (`controlled_by` is `null` or an
agent name string). -/
structure SnapNode where
  position : Pos
  controlled_by : Option String
deriving DecidableEq

structure SnapAgent where
  position : Pos
deriving DecidableEq

structure SnapAgents where
  strategist : SnapAgent
  instinct : SnapAgent
deriving DecidableEq

/-- The GameState snapshot consumed by `buildScene`. -/
structure Snapshot where
  grid_size : Nat
  grid : List (List String)
  fuel_stations : List SnapStation
  light_nodes : List SnapNode
  agents : SnapAgents
deriving DecidableEq

/-- Reads the grid cell at row y, column x — a missing entry reads as the
empty string (JS undefined), which matches no cell-type string. -/
def cellAt (g : List (List String)) (y x : Nat) : String :=
  (((g.get? y).getD []).get? x).getD ""

/-- A mesh group added to the Three.js scene by one of the `createX`
helpers. -/
inductive Entity where
  | wallE (p : Pos)
  | doorE (p : Pos)
  | windowE (p : Pos)
  | treeE (p : Pos)
  | stationE (p : Pos)
  | nodeE (p : Pos) (owner : Option String)
  | agentE (name : String) (p : Pos)
deriving DecidableEq

/-- Mutable visual state of a light-node mesh. -/
structure NodeObj where
  bulbColor : Nat
  emissiveIntensity : ℚ
  lightIntensity : ℚ
  controlledBy : Option String
deriving DecidableEq

/-- Mutable visual state of a fuel-station mesh. -/
structure StationObj where
  lightIntensity : ℚ
  tankEmissive : ℚ
deriving DecidableEq

/-- World-space position of an agent mesh. -/
structure AgentObj where
  posX : ℚ
  posZ : ℚ
deriving DecidableEq

/-- The scene-graph bookkeeping of `GameScene`: the list of mesh groups
added to the scene since the last clear, and the four keyed registries
(`this.agents`, `this.fuelStations`, `this.lightNodes`,
`this.environment`). -/
structure SceneState where
  entities : List Entity
  agents : List (String × AgentObj)
  fuelStations : List (Pos × StationObj)
  lightNodes : List (Pos × NodeObj)
  environment : List Pos
deriving DecidableEq

def emptyScene : SceneState :=
  { entities := [], agents := [], fuelStations := [], lightNodes := [], environment := [] }

/-- The clearing prologue of both `buildScene` implementations: every mesh
tracked by the four registries is removed from the scene and the
registries are reset (the rebuilt scene contents are modelled by the
entity list created since this clear). -/
def clearScene (_s : SceneState) : SceneState := emptyScene

/-- JS object-key lookup in a position-keyed registry. -/
def lookupPos {α : Type} (reg : List (Pos × α)) (p : Pos) : Option α :=
  (reg.find? (fun e => decide (e.1 = p))).map (fun e => e.2)

/-- JS object-key assignment in a position-keyed registry. -/
def upsertPos {α : Type} (reg : List (Pos × α)) (p : Pos) (v : α) : List (Pos × α) :=
  reg.filter (fun e => decide (e.1 ≠ p)) ++ [(p, v)]

/-- JS object-key lookup in a string-keyed registry. -/
def lookupStr {α : Type} (reg : List (String × α)) (k : String) : Option α :=
  (reg.find? (fun e => decide (e.1 = k))).map (fun e => e.2)

/-- JS object-key assignment in a string-keyed registry. -/
def upsertStr {α : Type} (reg : List (String × α)) (k : String) (v : α) : List (String × α) :=
  reg.filter (fun e => decide (e.1 ≠ k)) ++ [(k, v)]

/-! ### src/frontend/scene.js -/

namespace SceneJS

/-- The cell size, set to 2 once in the constructor and never changed. -/
def cellSize : ℚ := 2

/-- World-space center of a grid cell along one axis:
`coord * cellSize + cellSize / 2`. -/
def cellCenter (coord : Int) : ℚ :=
  (coord : ℚ) * cellSize + cellSize / 2

/-- The `controlledBy`-dependent bulb color of scene.js. -/
def nodeColor (controlledBy : Option String) : Nat :=
  if controlledBy == some "strategist" then 0x00ff88
  else if controlledBy == some "instinct" then 0xff00ff
  else 0x888888

/-- Embeds `GameScene.createWall`. -/
def createWall (s : SceneState) (p : Pos) : SceneState :=
  { s with entities := s.entities ++ [Entity.wallE p],
           environment := upsertPos (s.environment.map (fun q => (q, ()))) p () |>.map (fun e => e.1) }

/-- Embeds `GameScene.createFuelStation`. -/
def createFuelStation (s : SceneState) (p : Pos) : SceneState :=
  { s with entities := s.entities ++ [Entity.stationE p],
           fuelStations := upsertPos s.fuelStations p
             { lightIntensity := 1, tankEmissive := (3 : ℚ)/10 } }

/-- Embeds `GameScene.createLightNode`. -/
def createLightNode (s : SceneState) (p : Pos) (controlledBy : Option String) : SceneState :=
  { s with entities := s.entities ++ [Entity.nodeE p controlledBy],
           lightNodes := upsertPos s.lightNodes p
             { bulbColor := nodeColor controlledBy
               emissiveIntensity := if controlledBy.isSome then (6 : ℚ)/10 else (2 : ℚ)/10
               lightIntensity := if controlledBy.isSome then (3 : ℚ)/2 else (4 : ℚ)/10
               controlledBy := controlledBy } }

/-- Embeds `GameScene.createAgent` (the color argument is
presentation-only and omitted). -/
def createAgent (s : SceneState) (agentType : String) (p : Pos) : SceneState :=
  { s with entities := s.entities ++ [Entity.agentE agentType p],
           agents := upsertStr s.agents agentType
             { posX := cellCenter p.x, posZ := cellCenter p.y } }

/-- Embeds `GameScene.buildScene` from src/frontend/scene.js: clear all
registries and their meshes, create a wall per wall grid cell, a fuel
station per `fuel_stations` element, a light node per `light_nodes`
element (with its `controlled_by` owner), then the two agents. -/
def buildScene (prev : SceneState) (g : Snapshot) : SceneState :=
  let s0 : SceneState := clearScene prev
  let s1 := (List.range g.grid_size).foldl (fun acc y =>
              (List.range g.grid_size).foldl (fun acc2 x =>
                if cellAt g.grid y x == "wall" then
                  createWall acc2 { x := (x : Int), y := (y : Int) }
                else acc2) acc) s0
  let s2 := g.fuel_stations.foldl (fun acc fs => createFuelStation acc fs.position) s1
  let s3 := g.light_nodes.foldl (fun acc n => createLightNode acc n.position n.controlled_by) s2
  let s4 := createAgent s3 "strategist" g.agents.strategist.position
  createAgent s4 "instinct" g.agents.instinct.position

/-- Embeds `GameScene.updateLightNode`: no-op when the position is not a known
light node; otherwise recolor the bulb and record the new controller (the
pulse animation ends by restoring the intensity set here). -/
def updateLightNode (s : SceneState) (p : Pos) (controlledBy : Option String) : SceneState :=
  match lookupPos s.lightNodes p with
  | none => s
  | some node =>
    let node' : NodeObj :=
      { node with
        bulbColor := nodeColor controlledBy
        emissiveIntensity := if controlledBy.isSome then (6 : ℚ)/10 else (2 : ℚ)/10
        lightIntensity := if controlledBy.isSome then (3 : ℚ)/2 else (4 : ℚ)/10
        controlledBy := controlledBy }
    { s with lightNodes := upsertPos s.lightNodes p node' }

/-- Embeds `GameScene.updateFuelStation`: no-op when the position is not a known
fuel station. -/
def updateFuelStation (s : SceneState) (p : Pos) (isActive : Bool) : SceneState :=
  match lookupPos s.fuelStations p with
  | none => s
  | some station =>
    let station' : StationObj :=
      if isActive then { station with lightIntensity := 1, tankEmissive := (3 : ℚ)/10 }
      else { station with lightIntensity := (2 : ℚ)/10, tankEmissive := (5 : ℚ)/100 }
    { s with fuelStations := upsertPos s.fuelStations p station' }

/-- The `moveAgent` animation duration (300 ms). -/
def duration : ℚ := 300

/-- The clamped animation progress, elapsed over duration capped at 1. -/
def progressAt (elapsed : ℚ) : ℚ := min (elapsed / duration) 1

/-- The ease-in-out curve of `moveAgent`. -/
def eased (progress : ℚ) : ℚ :=
  if progress < 1/2 then 2 * progress * progress
  else 1 - ((-2) * progress + 2) ^ 2 / 2

/-- Position along one axis of the `moveAgent` animation at a given
elapsed time. -/
def animPos (start target elapsed : ℚ) : ℚ :=
  start + (target - start) * eased (progressAt elapsed)

/-- Embeds `GameScene.moveAgent`, sampled at a given elapsed animation time:
no-op for an unknown agent type; otherwise the agent mesh interpolates
from its current position toward the cell center of `target`. -/
def moveAgent (s : SceneState) (agentType : String) (target : Pos) (elapsed : ℚ) : SceneState :=
  match lookupStr s.agents agentType with
  | none => s
  | some a =>
    let a' : AgentObj :=
      { posX := animPos a.posX (cellCenter target.x) elapsed
        posZ := animPos a.posZ (cellCenter target.y) elapsed }
    { s with agents := upsertStr s.agents agentType a' }

end SceneJS

/-! ### src/unnamed/part_001 (an older scene.js variant) -/

namespace SceneV1

/-- The cell size is 2 in part_001 as well. -/
def cellSize : ℚ := 2

def cellCenter (coord : Int) : ℚ :=
  (coord : ℚ) * cellSize + cellSize / 2

/-- The part_001 bulb color (uncontrolled nodes are `0x666666` here). -/
def nodeColor (controlledBy : Option String) : Nat :=
  if controlledBy == some "strategist" then 0x00ff88
  else if controlledBy == some "instinct" then 0xff00ff
  else 0x666666

def createWall (s : SceneState) (p : Pos) : SceneState :=
  { s with entities := s.entities ++ [Entity.wallE p],
           environment := upsertPos (s.environment.map (fun q => (q, ()))) p () |>.map (fun e => e.1) }

def createDoor (s : SceneState) (p : Pos) : SceneState :=
  { s with entities := s.entities ++ [Entity.doorE p],
           environment := upsertPos (s.environment.map (fun q => (q, ()))) p () |>.map (fun e => e.1) }

def createWindow (s : SceneState) (p : Pos) : SceneState :=
  { s with entities := s.entities ++ [Entity.windowE p],
           environment := upsertPos (s.environment.map (fun q => (q, ()))) p () |>.map (fun e => e.1) }

def createTree (s : SceneState) (p : Pos) : SceneState :=
  { s with entities := s.entities ++ [Entity.treeE p],
           environment := upsertPos (s.environment.map (fun q => (q, ()))) p () |>.map (fun e => e.1) }

def createFuelStation (s : SceneState) (p : Pos) : SceneState :=
  { s with entities := s.entities ++ [Entity.stationE p],
           fuelStations := upsertPos s.fuelStations p
             { lightIntensity := (8 : ℚ)/10, tankEmissive := (2 : ℚ)/10 } }

def createLightNode (s : SceneState) (p : Pos) (controlledBy : Option String) : SceneState :=
  { s with entities := s.entities ++ [Entity.nodeE p controlledBy],
           lightNodes := upsertPos s.lightNodes p
             { bulbColor := nodeColor controlledBy
               emissiveIntensity := if controlledBy.isSome then (5 : ℚ)/10 else (1 : ℚ)/10
               lightIntensity := if controlledBy.isSome then (3 : ℚ)/2 else (2 : ℚ)/10
               controlledBy := controlledBy } }

def createAgent (s : SceneState) (agentType : String) (p : Pos) : SceneState :=
  { s with entities := s.entities ++ [Entity.agentE agentType p],
           agents := upsertStr s.agents agentType
             { posX := cellCenter p.x, posZ := cellCenter p.y } }

/-- Embeds the part_001 `updateLightNode` (same control flow as scene.js,
other intensity constants). -/
def updateLightNode (s : SceneState) (p : Pos) (controlledBy : Option String) : SceneState :=
  match lookupPos s.lightNodes p with
  | none => s
  | some node =>
    let node' : NodeObj :=
      { node with
        bulbColor := nodeColor controlledBy
        emissiveIntensity := if controlledBy.isSome then (5 : ℚ)/10 else (1 : ℚ)/10
        lightIntensity := if controlledBy.isSome then (3 : ℚ)/2 else (2 : ℚ)/10
        controlledBy := controlledBy }
    { s with lightNodes := upsertPos s.lightNodes p node' }

/-- The per-cell dispatch of the part_001 grid loop. -/
def buildCell (acc : SceneState) (cellType : String) (p : Pos) : SceneState :=
  if cellType == "wall" then createWall acc p
  else if cellType == "door" then createDoor acc p
  else if cellType == "window" then createWindow acc p
  else if cellType == "tree" then createTree acc p
  else if cellType == "fuel_station" then createFuelStation acc p
  else if cellType == "light_node" then createLightNode acc p none
  else acc

/-- Embeds `GameScene.buildScene` from src/unnamed/part_001: clear, build every
environment element (walls, doors, windows, trees) and the fuel stations
and light nodes straight from the grid marker cells, create the agents,
then push the snapshot controllers onto the (grid-derived) light
nodes. -/
def buildScene (prev : SceneState) (g : Snapshot) : SceneState :=
  let s0 : SceneState := clearScene prev
  let s1 := (List.range g.grid_size).foldl (fun acc y =>
              (List.range g.grid_size).foldl (fun acc2 x =>
                buildCell acc2 (cellAt g.grid y x) { x := (x : Int), y := (y : Int) }) acc) s0
  let s2 := createAgent s1 "strategist" g.agents.strategist.position
  let s3 := createAgent s2 "instinct" g.agents.instinct.position
  g.light_nodes.foldl (fun acc n => updateLightNode acc n.position n.controlled_by) s3

end SceneV1

/-! ## Helper lemmas -/

lemma trimLog_eq_drop_aux (n : Nat) :
    ∀ l : List String, l.length ≤ n → Client.trimLog l = l.drop (l.length - 20) := by
  induction n with
  | zero =>
    intro l h
    rw [Client.trimLog]
    have h0 : l.length = 0 := Nat.le_zero.mp h
    simp [h0]
  | succ n ih =>
    intro l h
    rw [Client.trimLog]
    by_cases hgt : 20 < l.length
    · simp only [hgt, dif_pos]
      cases l with
      | nil => simp at hgt
      | cons a t =>
        have ht : t.length ≤ n := by
          have hl : (a :: t).length = t.length + 1 := List.length_cons a t
          omega
        rw [List.tail_cons, ih t ht]
        have h21 : (a :: t).length - 20 = (t.length - 20) + 1 := by
          have hl : (a :: t).length = t.length + 1 := List.length_cons a t
          omega
        rw [h21, List.drop_succ_cons]
    · simp only [hgt, dif_neg, not_false_eq_true]
      have h0 : l.length - 20 = 0 := by omega
      simp [h0]

/-- The trim loop keeps only the last 20 entries. -/
lemma trimLog_eq_drop (l : List String) : Client.trimLog l = l.drop (l.length - 20) :=
  trimLog_eq_drop_aux l.length l le_rfl


/-! ## Claim theorems: UI controller and game controller -/

/-- Claim C10: after every call to `addLogEntry`, the action log contains
at most 20 entries; the result is a suffix of the old log plus the new
entry (oldest entries are removed first, insertion order is kept), of
length `min 20 (previous length + 1)`. -/
theorem ui_log_bounded (log : List String) (now msg : String) :
    (Client.addLogEntry log now msg).length ≤ 20 ∧
    (Client.addLogEntry log now msg) <:+ (log ++ [Client.logEntryText now msg]) ∧
    (Client.addLogEntry log now msg).length = min 20 (log.length + 1) := by
  unfold Client.addLogEntry
  rw [trimLog_eq_drop]
  refine ⟨?_, List.drop_suffix _ _, ?_⟩
  · rw [List.length_drop]
    omega
  · rw [List.length_drop]
    simp only [List.length_append, List.length_cons, List.length_nil]
    omega

/-- Claim C1: the game-over overlay displays the winner named by the
payload (`strategist` → Unit S banner, `instinct` → Unit I banner, any
other value → draw banner), and shows the final node counts and scores
unchanged from `final_state.agents.*.nodes_controlled`,
`strategist_score` and `instinct_score`. -/
theorem client_game_over_display (d : Client.GameOverData) :
    (d.winner = "strategist" →
      (Client.showGameOver d).winnerText = "⚙️ UNIT S (STRATEGIST) WINS") ∧
    (d.winner = "instinct" →
      (Client.showGameOver d).winnerText = "🎯 UNIT I (INSTINCT) WINS") ∧
    (d.winner ≠ "strategist" → d.winner ≠ "instinct" →
      (Client.showGameOver d).winnerText = "🤝 DRAW - EQUAL PERFORMANCE") ∧
    (Client.showGameOver d).finalStrategistNodes = d.finalStrategist.nodes_controlled ∧
    (Client.showGameOver d).finalInstinctNodes = d.finalInstinct.nodes_controlled ∧
    (Client.showGameOver d).finalStrategistScore = d.strategist_score ∧
    (Client.showGameOver d).finalInstinctScore = d.instinct_score := by
  refine ⟨fun h => ?_, fun h => ?_, fun h1 h2 => ?_, rfl, rfl, rfl, rfl⟩
  · simp [Client.showGameOver, h]
  · simp [Client.showGameOver, h]
  · simp [Client.showGameOver, h1, h2]

/-- Witness for C1 at two concrete payloads (a strategist win and a
draw-displayed unknown winner value). -/
theorem client_game_over_display_witness :
    (Client.showGameOver
      { winner := "strategist", finalStrategist := ⟨3, 2, 10⟩,
        finalInstinct := ⟨1, 0, 5⟩, strategist_score := 100, instinct_score := 95 }).winnerText
      = "⚙️ UNIT S (STRATEGIST) WINS" ∧
    (Client.showGameOver
      { winner := "draw", finalStrategist := ⟨3, 2, 10⟩,
        finalInstinct := ⟨1, 0, 5⟩, strategist_score := 100, instinct_score := 95 }).winnerText
      = "🤝 DRAW - EQUAL PERFORMANCE" :=
  ⟨(client_game_over_display _).1 rfl,
   (client_game_over_display _).2.2.1 (by decide) (by decide)⟩

/-- Claim C4: `startGame` sends exactly the JSON `start` command when the
socket is connected and only logs an error otherwise, `resetGame` sends
the `reset` command only when connected, and no other message is ever
sent. -/
theorem client_commands (st : Client.WSState) :
    (st.isConnected = true → st.wsOpen = true →
       Client.startGame st = { sent := [Client.startJson], log := [] }) ∧
    (¬ (st.isConnected = true ∧ st.wsOpen = true) →
       Client.startGame st =
         { sent := [], log := ["Cannot start game - not connected to server."] }) ∧
    (st.isConnected = true → st.wsOpen = true →
       Client.resetGame st = { sent := [Client.resetJson], log := [] }) ∧
    (¬ (st.isConnected = true ∧ st.wsOpen = true) →
       Client.resetGame st = { sent := [], log := [] }) ∧
    (∀ m, m ∈ (Client.startGame st).sent ++ (Client.resetGame st).sent →
       m = Client.startJson ∨ m = Client.resetJson) := by
  cases hc : st.isConnected <;> cases hw : st.wsOpen <;>
    simp [Client.startGame, Client.resetGame, hc, hw]

/-- Witness for C4 at the connected and the disconnected states. -/
theorem client_commands_witness :
    Client.startGame { isConnected := true, wsOpen := true }
      = { sent := [Client.startJson], log := [] } ∧
    Client.startGame { isConnected := false, wsOpen := true }
      = { sent := [], log := ["Cannot start game - not connected to server."] } :=
  ⟨(client_commands _).1 rfl rfl,
   (client_commands _).2.1 (by simp)⟩

/-- Claim C5: `formatAction` names the acting agent (`strategist` →
`Unit S`, anything else → `Unit I`) and, per action type, reports the
move destination, the refuel amount and new total, the node position,
the captured node position with its prior owner, a waiting message, or a
generic `performed` message. -/
theorem client_format_action (a : Client.JSAction) :
    (a.type = "move" → Client.formatAction a =
      Client.unitName a.agent ++ " moved to (" ++ toString a.toPos.x ++ ", " ++
        toString a.toPos.y ++ ")") ∧
    (a.type = "refuel" → Client.formatAction a =
      Client.unitName a.agent ++ " refueled +" ++ toString a.fuel_gained ++ " fuel → " ++
        toString a.new_fuel) ∧
    (a.type = "control_node" → Client.formatAction a =
      Client.unitName a.agent ++ " controlled light node at (" ++ toString a.position.x ++
        ", " ++ toString a.position.y ++ ")") ∧
    (a.type = "capture_node" → Client.formatAction a =
      Client.unitName a.agent ++ " captured node from " ++ Client.unitName a.from_agent ++
        " at (" ++ toString a.position.x ++ ", " ++ toString a.position.y ++ ")") ∧
    (a.type = "wait" → Client.formatAction a =
      Client.unitName a.agent ++ " is waiting...") ∧
    (a.type ∉ (["move", "refuel", "control_node", "capture_node", "wait"] : List String) →
      Client.formatAction a = Client.unitName a.agent ++ " performed " ++ a.type) ∧
    (a.agent = "strategist" → Client.unitName a.agent = "Unit S") ∧
    (a.agent ≠ "strategist" → Client.unitName a.agent = "Unit I") := by
  refine ⟨?_, ?_, ?_, ?_, ?_, ?_, ?_, ?_⟩
  · intro h
    simp [Client.formatAction, h]
  · intro h
    simp [Client.formatAction, h]
  · intro h
    simp [Client.formatAction, h]
  · intro h
    simp [Client.formatAction, h]
  · intro h
    simp [Client.formatAction, h]
  · intro h
    simp only [List.mem_cons, List.mem_singleton, not_or] at h
    obtain ⟨h1, h2, h3, h4, h5, _⟩ := h
    simp [Client.formatAction, h1, h2, h3, h4, h5]
  · intro h
    simp [Client.unitName, h]
  · intro h
    simp [Client.unitName, h]

/-- Witness for C5 at a concrete move action. -/
theorem client_format_action_witness :
    Client.formatAction
      { type := "move", agent := "strategist", toPos := ⟨3, 4⟩, fuel_gained := 0,
        new_fuel := 0, position := ⟨0, 0⟩, from_agent := "" }
      = "Unit S moved to (3, 4)" :=
  (client_format_action _).1 rfl

/-! ## Claim theorems: core winner rule and MCTS selection -/

/-- Claim C2: on a terminal state, `winner()` prefers the agent with more
nodes controlled, breaks node ties by remaining fuel, and declares a draw
on a full tie. -/
theorem core_winner_ordering (cfg : Config) (s : GState)
    (_ht : isTerminal cfg s = true) :
    (countNodes s AgentId.instinct < countNodes s AgentId.strategist →
       winner s = Outcome.strategistWins) ∧
    (countNodes s AgentId.strategist < countNodes s AgentId.instinct →
       winner s = Outcome.instinctWins) ∧
    (countNodes s AgentId.strategist = countNodes s AgentId.instinct →
       s.inst.fuel < s.strat.fuel → winner s = Outcome.strategistWins) ∧
    (countNodes s AgentId.strategist = countNodes s AgentId.instinct →
       s.strat.fuel < s.inst.fuel → winner s = Outcome.instinctWins) ∧
    (countNodes s AgentId.strategist = countNodes s AgentId.instinct →
       s.strat.fuel = s.inst.fuel → winner s = Outcome.draw) := by
  simp only [winner]
  split_ifs with hgt hlt hf1 hf2 <;>
    refine ⟨fun h => ?_, fun h => ?_, fun h1 h2 => ?_, fun h1 h2 => ?_, fun h1 h2 => ?_⟩ <;>
    first | rfl | omega

/-- Witness for C2 at a concrete terminal state (turn cap reached, equal
node counts, strategist has more fuel). -/
theorem core_winner_ordering_witness :
    winner { strat := ⟨⟨0, 0⟩, 5⟩, inst := ⟨⟨1, 1⟩, 3⟩, stations := [], nodes := [],
             terrain := [], turn := 100, active := AgentId.strategist }
      = Outcome.strategistWins :=
  (core_winner_ordering
    { gridSize := 12, maxTurns := 100, moveCost := 1, refuelAmount := 3, maxFuel := 10,
      regenAmount := 1, regenPeriod := 5 } _ (by decide)).2.2.1 (by decide) (by decide)

/-- The running maximum kept by `selectMostVisited` is a member of the
scanned list and dominates every scanned visit count. -/
lemma foldl_maxVisit (cs : List MChild) :
    ∀ c : MChild,
      (cs.foldl (fun best x => if best.visitCount < x.visitCount then x else best) c = c ∨
       cs.foldl (fun best x => if best.visitCount < x.visitCount then x else best) c ∈ cs) ∧
      c.visitCount ≤
        (cs.foldl (fun best x => if best.visitCount < x.visitCount then x else best) c).visitCount ∧
      ∀ x ∈ cs, x.visitCount ≤
        (cs.foldl (fun best x => if best.visitCount < x.visitCount then x else best) c).visitCount := by
  induction cs with
  | nil => intro c; simp
  | cons a t ih =>
    intro c
    simp only [List.foldl_cons]
    by_cases hlt : c.visitCount < a.visitCount
    · simp only [hlt, if_pos]
      obtain ⟨hmem, hle, hall⟩ := ih a
      refine ⟨?_, ?_, ?_⟩
      · rcases hmem with h | h
        · right
          simp [h]
        · right
          simp [h]
      · omega
      · intro x hx
        rcases List.mem_cons.mp hx with rfl | hx
        · exact hle
        · exact hall x hx
    · simp only [hlt, if_neg, not_false_eq_true]
      obtain ⟨hmem, hle, hall⟩ := ih c
      refine ⟨?_, ?_, ?_⟩
      · rcases hmem with h | h
        · left
          exact h
        · right
          exact List.mem_cons_of_mem a h
      · exact hle
      · intro x hx
        rcases List.mem_cons.mp hx with rfl | hx
        · omega
        · exact hall x hx

/-- Claim C7: on a non-empty root-children list, the MCTS final choice is
a child with maximal `visitCount`; and on `demoChildren` it differs from
the highest-mean-reward choice. -/
theorem mcts_best_child (children : List MChild) (h : children ≠ []) :
    (∃ c, selectMostVisited children = some c ∧ c ∈ children ∧
       ∀ x ∈ children, x.visitCount ≤ c.visitCount) ∧
    selectMostVisited demoChildren ≠ selectHighestMean demoChildren := by
  constructor
  · cases children with
    | nil => exact absurd rfl h
    | cons c cs =>
      obtain ⟨hmem, hle, hall⟩ := foldl_maxVisit cs c
      refine ⟨_, rfl, ?_, ?_⟩
      · rcases hmem with heq | hmem
        · rw [heq]
          exact List.mem_cons_self c cs
        · exact List.mem_cons_of_mem c hmem
      · intro x hx
        rcases List.mem_cons.mp hx with rfl | hx
        · exact hle
        · exact hall x hx
  · have h1 : selectMostVisited demoChildren
        = some { action := Action.wait, visitCount := 10, totalReward := 5 } := rfl
    have h2 : selectHighestMean demoChildren
        = some { action := Action.refuel, visitCount := 2, totalReward := 4 } := by
      simp only [selectHighestMean, demoChildren, List.foldl_cons, List.foldl_nil]
      rw [if_pos]
      norm_num [meanReward]
    rw [h1, h2]
    simp

/-- Witness for C7 on the two-child demo list. -/
theorem mcts_best_child_witness :
    ∃ c, selectMostVisited demoChildren = some c ∧ c ∈ demoChildren ∧
      ∀ x ∈ demoChildren, x.visitCount ≤ c.visitCount :=
  (mcts_best_child demoChildren (by decide)).1

/-! ## Claim C3: fuel non-negativity along reachable states -/

lemma withAgent_stations (s : GState) (id : AgentId) (a : Agent) :
    (withAgent s id a).stations = s.stations := by
  cases id <;> rfl

lemma fuelInv_withAgent (s : GState) (id : AgentId) (a : Agent)
    (hinv : FuelInv s) (hf : 0 ≤ a.fuel) : FuelInv (withAgent s id a) := by
  cases id
  · exact ⟨hf, hinv.2.1, hinv.2.2⟩
  · exact ⟨hinv.1, hf, hinv.2.2⟩

lemma fuelInv_advanceTurn (cfg : Config) (s : GState)
    (hreg : 0 ≤ cfg.regenAmount) (h : FuelInv s) : FuelInv (advanceTurn cfg s) := by
  simp only [advanceTurn]
  split_ifs
  · refine ⟨h.1, h.2.1, ?_⟩
    intro st hst
    simp only [List.mem_map] at hst
    obtain ⟨st0, hm, rfl⟩ := hst
    have h0 := h.2.2 st0 hm
    exact ⟨le_min (by omega) h0.2, h0.2⟩
  · exact ⟨h.1, h.2.1, h.2.2⟩

lemma legal_move_fuel {cfg : Config} {s : GState} {id : AgentId} {d : Direction}
    (hleg : legalAction cfg s id (Action.move d) = true) :
    cfg.moveCost ≤ (agentOf s id).fuel := by
  simp only [legalAction, Bool.and_eq_true, decide_eq_true_eq] at hleg
  exact hleg.2

lemma fuelInv_apply {cfg : Config} {s s' : GState} {id : AgentId} {a : Action}
    (hra : 0 ≤ cfg.refuelAmount) (hreg : 0 ≤ cfg.regenAmount) (hmax : 0 ≤ cfg.maxFuel)
    (hinv : FuelInv s) (happ : applyAction cfg s id a = some s') : FuelInv s' := by
  unfold applyAction at happ
  by_cases hleg : legalAction cfg s id a = true
  · simp only [hleg, if_true] at happ
    cases a with
    | move d =>
      simp only [Option.some.injEq] at happ
      subst happ
      refine fuelInv_advanceTurn cfg _ hreg ?_
      refine fuelInv_withAgent s id _ hinv ?_
      have hge := legal_move_fuel hleg
      simp only
      omega
    | refuel =>
      cases hst : stationAt s (agentOf s id).pos with
      | none =>
        rw [hst] at happ
        exact absurd happ (by simp)
      | some st =>
        rw [hst] at happ
        simp only [Option.some.injEq] at happ
        subst happ
        have hmem : st ∈ s.stations := List.mem_of_find?_eq_some hst
        have hstinv := hinv.2.2 st hmem
        have hgain : 0 ≤ min cfg.refuelAmount st.current := le_min hra hstinv.1
        refine fuelInv_advanceTurn cfg _ hreg ?_
        have hfuel0 : 0 ≤ (agentOf s id).fuel := by
          cases id
          · exact hinv.1
          · exact hinv.2.1
        have h1 : FuelInv (withAgent s id
            { agentOf s id with
              fuel := min ((agentOf s id).fuel + min cfg.refuelAmount st.current) cfg.maxFuel }) :=
          fuelInv_withAgent s id _ hinv (le_min (by omega) hmax)
        refine ⟨h1.1, h1.2.1, ?_⟩
        intro t ht
        simp only [List.mem_map] at ht
        obtain ⟨t0, hm0, rfl⟩ := ht
        rw [withAgent_stations] at hm0
        have ht0 := hinv.2.2 t0 hm0
        by_cases he : t0 = st
        · subst he
          rw [if_pos rfl]
          refine ⟨?_, ht0.2⟩
          show 0 ≤ t0.current - cfg.refuelAmount ⊓ t0.current
          omega
        · rw [if_neg he]
          exact ht0
    | controlNode =>
      simp only [Option.some.injEq] at happ
      subst happ
      exact fuelInv_advanceTurn cfg _ hreg ⟨hinv.1, hinv.2.1, hinv.2.2⟩
    | wait =>
      simp only [Option.some.injEq] at happ
      subst happ
      exact fuelInv_advanceTurn cfg _ hreg hinv
  · simp only [Bool.not_eq_true] at hleg
    simp [hleg] at happ

/-- Along any reachable state from a valid start, fuel and station fills
stay non-negative. -/
lemma reachable_fuelInv {cfg : Config} {s0 s : GState}
    (hv : ValidInit cfg s0) (hr : Reachable cfg s0 s) : FuelInv s := by
  induction hr with
  | refl => exact hv.1
  | step _ happ ih => exact fuelInv_apply hv.2.1 hv.2.2.1 hv.2.2.2 ih happ

/-- Claim C3: in every reachable state the fuel of each agent is non-negative,
and a Move action is illegal for an agent whose fuel is below the move
cost — legal play can never drive fuel negative. -/
theorem core_fuel_nonneg (cfg : Config) (s0 s : GState)
    (hv : ValidInit cfg s0) (hr : Reachable cfg s0 s) :
    (0 ≤ s.strat.fuel ∧ 0 ≤ s.inst.fuel) ∧
    ∀ (id : AgentId) (d : Direction),
      (agentOf s id).fuel < cfg.moveCost →
      legalAction cfg s id (Action.move d) = false := by
  have hinv := reachable_fuelInv hv hr
  refine ⟨⟨hinv.1, hinv.2.1⟩, ?_⟩
  intro id d hlt
  cases hb : legalAction cfg s id (Action.move d) with
  | false => rfl
  | true =>
    have hge := legal_move_fuel hb
    omega

/-- A concrete valid configuration for the C3 witness. -/
def exConfig : Config :=
  { gridSize := 12, maxTurns := 100, moveCost := 1, refuelAmount := 3, maxFuel := 10,
    regenAmount := 1, regenPeriod := 5 }

/-- A concrete valid initial state for the C3 witness: the strategist
starts with zero fuel. -/
def exInitState : GState :=
  { strat := ⟨⟨0, 0⟩, 0⟩, inst := ⟨⟨5, 5⟩, 5⟩,
    stations := [⟨⟨2, 2⟩, 10, 10⟩], nodes := [⟨⟨3, 3⟩, none⟩],
    terrain := [], turn := 0, active := AgentId.strategist }

/-- Witness for C3 at the initial state: fuel is non-negative and the
zero-fuel strategist may not move. -/
theorem core_fuel_nonneg_witness :
    (0 ≤ exInitState.strat.fuel ∧ 0 ≤ exInitState.inst.fuel) ∧
    legalAction exConfig exInitState AgentId.strategist (Action.move Direction.north) = false :=
  ⟨(core_fuel_nonneg exConfig exInitState exInitState (by decide) Reachable.refl).1,
   (core_fuel_nonneg exConfig exInitState exInitState (by decide) Reachable.refl).2
     AgentId.strategist Direction.north (by decide)⟩

/-! ## Scene characterization helpers -/

def wallPosOf : Entity → Option Pos
  | Entity.wallE p => some p
  | _ => none

def stationPosOf : Entity → Option Pos
  | Entity.stationE p => some p
  | _ => none

def nodeInfoOf : Entity → Option (Pos × Option String)
  | Entity.nodeE p c => some (p, c)
  | _ => none

def agentInfoOf : Entity → Option (String × Pos)
  | Entity.agentE n p => some (n, p)
  | _ => none

/-- Grid positions of the wall entities in the scene. -/
def wallsOf (s : SceneState) : List Pos := s.entities.filterMap wallPosOf

/-- Grid positions of the fuel-station entities in the scene. -/
def stationsOf (s : SceneState) : List Pos := s.entities.filterMap stationPosOf

/-- Grid positions and controllers of the light-node entities. -/
def nodesOf (s : SceneState) : List (Pos × Option String) := s.entities.filterMap nodeInfoOf

/-- Names and grid positions of the agent entities. -/
def sceneAgentsOf (s : SceneState) : List (String × Pos) := s.entities.filterMap agentInfoOf

/-- One row of wall cells, scanned left to right. -/
def wallRow (g : Snapshot) (y : Nat) : List Pos :=
  (List.range g.grid_size).filterMap (fun x =>
    if cellAt g.grid y x == "wall" then some { x := (x : Int), y := (y : Int) } else none)

/-- All wall cells of the snapshot grid, in scan order. -/
def wallCells (g : Snapshot) : List Pos :=
  (List.range g.grid_size).flatMap (wallRow g)

/-- A grid cell of the snapshot whose terrain string is `"wall"`. -/
def WallCell (g : Snapshot) (p : Pos) : Prop :=
  ∃ x y : Nat, p = { x := (x : Int), y := (y : Int) } ∧
    x < g.grid_size ∧ y < g.grid_size ∧ cellAt g.grid y x = "wall"

lemma filterMap_flatMap {α β γ : Type} (l : List α) (f : α → List β) (g : β → Option γ) :
    (l.flatMap f).filterMap g = l.flatMap (fun a => (f a).filterMap g) := by
  induction l with
  | nil => simp
  | cons a t ih => simp [ih]

lemma sceneJS_wallRow_entities (g : Snapshot) (y : Nat) (xs : List Nat) :
    ∀ acc : SceneState,
      (xs.foldl (fun acc2 x =>
        if cellAt g.grid y x == "wall" then
          SceneJS.createWall acc2 { x := (x : Int), y := (y : Int) }
        else acc2) acc).entities
      = acc.entities ++ xs.filterMap (fun x =>
          if cellAt g.grid y x == "wall" then
            some (Entity.wallE { x := (x : Int), y := (y : Int) })
          else none) := by
  induction xs with
  | nil => intro acc; simp
  | cons a t ih =>
    intro acc
    cases hb : (cellAt g.grid y a == "wall") with
    | true =>
      rw [List.foldl_cons, if_pos hb, ih]
      have heq : cellAt g.grid y a = "wall" := by simpa using hb
      simp [SceneJS.createWall, List.filterMap_cons, heq]
    | false =>
      have hb' : ¬ ((cellAt g.grid y a == "wall") = true) := by
        rw [hb]
        exact Bool.false_ne_true
      rw [List.foldl_cons, if_neg hb', ih]
      have hne : cellAt g.grid y a ≠ "wall" := by simpa using hb
      simp [List.filterMap_cons, hne]

lemma sceneJS_wallLoop_entities (g : Snapshot) (ys : List Nat) :
    ∀ acc : SceneState,
      (ys.foldl (fun acc y =>
        (List.range g.grid_size).foldl (fun acc2 x =>
          if cellAt g.grid y x == "wall" then
            SceneJS.createWall acc2 { x := (x : Int), y := (y : Int) }
          else acc2) acc) acc).entities
      = acc.entities ++ ys.flatMap (fun y =>
          (List.range g.grid_size).filterMap (fun x =>
            if cellAt g.grid y x == "wall" then
              some (Entity.wallE { x := (x : Int), y := (y : Int) })
            else none)) := by
  induction ys with
  | nil => intro acc; simp
  | cons b t ih =>
    intro acc
    rw [List.foldl_cons, ih, sceneJS_wallRow_entities]
    simp [List.append_assoc]

lemma sceneJS_stations_fold_entities (l : List SnapStation) :
    ∀ acc : SceneState,
      (l.foldl (fun a fs => SceneJS.createFuelStation a fs.position) acc).entities
      = acc.entities ++ l.map (fun fs => Entity.stationE fs.position) := by
  induction l with
  | nil => intro acc; simp
  | cons fs t ih =>
    intro acc
    rw [List.foldl_cons, ih]
    simp [SceneJS.createFuelStation]

lemma sceneJS_nodes_fold_entities (l : List SnapNode) :
    ∀ acc : SceneState,
      (l.foldl (fun a n => SceneJS.createLightNode a n.position n.controlled_by) acc).entities
      = acc.entities ++ l.map (fun n => Entity.nodeE n.position n.controlled_by) := by
  induction l with
  | nil => intro acc; simp
  | cons n t ih =>
    intro acc
    rw [List.foldl_cons, ih]
    simp [SceneJS.createLightNode]

/-- The wall entities produced by the scene.js grid loop. -/
def wallEnts (g : Snapshot) : List Entity :=
  (List.range g.grid_size).flatMap (fun y =>
    (List.range g.grid_size).filterMap (fun x =>
      if cellAt g.grid y x == "wall" then
        some (Entity.wallE { x := (x : Int), y := (y : Int) })
      else none))

/-- Closed form of the entity list built by `SceneJS.buildScene`. -/
lemma sceneJS_buildScene_entities (prev : SceneState) (g : Snapshot) :
    (SceneJS.buildScene prev g).entities =
      wallEnts g ++ g.fuel_stations.map (fun fs => Entity.stationE fs.position)
        ++ g.light_nodes.map (fun n => Entity.nodeE n.position n.controlled_by)
        ++ [Entity.agentE "strategist" g.agents.strategist.position,
            Entity.agentE "instinct" g.agents.instinct.position] := by
  simp only [SceneJS.buildScene, SceneJS.createAgent]
  rw [sceneJS_nodes_fold_entities, sceneJS_stations_fold_entities, sceneJS_wallLoop_entities]
  simp [clearScene, emptyScene, wallEnts, List.append_assoc]

lemma filterMap_const_none {α β : Type} (l : List α) :
    l.filterMap (fun _ => (none : Option β)) = [] := by
  induction l <;> simp [*]

lemma wallsOf_sceneJS (prev : SceneState) (g : Snapshot) :
    wallsOf (SceneJS.buildScene prev g) = wallCells g := by
  rw [wallsOf, sceneJS_buildScene_entities]
  simp only [List.filterMap_append]
  have h1 : (wallEnts g).filterMap wallPosOf = wallCells g := by
    rw [wallEnts, wallCells, filterMap_flatMap]
    congr 1
    funext y
    rw [List.filterMap_filterMap, wallRow]
    congr 1
    funext x
    cases cellAt g.grid y x == "wall" <;> rfl
  have h2 : (g.fuel_stations.map (fun fs => Entity.stationE fs.position)).filterMap wallPosOf
      = [] := by
    rw [List.filterMap_map]
    exact filterMap_const_none _
  have h3 : (g.light_nodes.map (fun n => Entity.nodeE n.position n.controlled_by)).filterMap
      wallPosOf = [] := by
    rw [List.filterMap_map]
    exact filterMap_const_none _
  rw [h1, h2, h3]
  simp [wallPosOf]

lemma stationsOf_sceneJS (prev : SceneState) (g : Snapshot) :
    stationsOf (SceneJS.buildScene prev g) = g.fuel_stations.map (fun fs => fs.position) := by
  rw [stationsOf, sceneJS_buildScene_entities]
  simp only [List.filterMap_append]
  have h1 : (wallEnts g).filterMap stationPosOf = [] := by
    rw [wallEnts, filterMap_flatMap]
    have hrow : ∀ y, ((List.range g.grid_size).filterMap (fun x =>
        if cellAt g.grid y x == "wall" then
          some (Entity.wallE { x := (x : Int), y := (y : Int) }) else none)).filterMap
        stationPosOf = [] := by
      intro y
      rw [List.filterMap_filterMap]
      have : ∀ x, ((if cellAt g.grid y x == "wall" then
          some (Entity.wallE { x := (x : Int), y := (y : Int) }) else none).bind stationPosOf)
          = none := by
        intro x
        cases cellAt g.grid y x == "wall" <;> rfl
      simp only [this]
      exact filterMap_const_none _
    simp only [hrow]
    simp
  have h2 : (g.fuel_stations.map (fun fs => Entity.stationE fs.position)).filterMap stationPosOf
      = g.fuel_stations.map (fun fs => fs.position) := by
    rw [List.filterMap_map]
    have hfun : (stationPosOf ∘ fun fs => Entity.stationE fs.position)
        = some ∘ (fun fs : SnapStation => fs.position) := funext (fun fs => rfl)
    rw [hfun, List.filterMap_eq_map]
  have h3 : (g.light_nodes.map (fun n => Entity.nodeE n.position n.controlled_by)).filterMap
      stationPosOf = [] := by
    rw [List.filterMap_map]
    exact filterMap_const_none _
  rw [h1, h2, h3]
  simp [stationPosOf]

lemma nodesOf_sceneJS (prev : SceneState) (g : Snapshot) :
    nodesOf (SceneJS.buildScene prev g)
      = g.light_nodes.map (fun n => (n.position, n.controlled_by)) := by
  rw [nodesOf, sceneJS_buildScene_entities]
  simp only [List.filterMap_append]
  have h1 : (wallEnts g).filterMap nodeInfoOf = [] := by
    rw [wallEnts, filterMap_flatMap]
    have hrow : ∀ y, ((List.range g.grid_size).filterMap (fun x =>
        if cellAt g.grid y x == "wall" then
          some (Entity.wallE { x := (x : Int), y := (y : Int) }) else none)).filterMap
        nodeInfoOf = [] := by
      intro y
      rw [List.filterMap_filterMap]
      have : ∀ x, ((if cellAt g.grid y x == "wall" then
          some (Entity.wallE { x := (x : Int), y := (y : Int) }) else none).bind nodeInfoOf)
          = none := by
        intro x
        cases cellAt g.grid y x == "wall" <;> rfl
      simp only [this]
      exact filterMap_const_none _
    simp only [hrow]
    simp
  have h2 : (g.fuel_stations.map (fun fs => Entity.stationE fs.position)).filterMap nodeInfoOf
      = [] := by
    rw [List.filterMap_map]
    exact filterMap_const_none _
  have h3 : (g.light_nodes.map (fun n => Entity.nodeE n.position n.controlled_by)).filterMap
      nodeInfoOf = g.light_nodes.map (fun n => (n.position, n.controlled_by)) := by
    rw [List.filterMap_map]
    have hfun : (nodeInfoOf ∘ fun n => Entity.nodeE n.position n.controlled_by)
        = some ∘ (fun n : SnapNode => (n.position, n.controlled_by)) := funext (fun n => rfl)
    rw [hfun, List.filterMap_eq_map]
  rw [h1, h2, h3]
  simp [nodeInfoOf]

lemma sceneAgentsOf_sceneJS (prev : SceneState) (g : Snapshot) :
    sceneAgentsOf (SceneJS.buildScene prev g)
      = [("strategist", g.agents.strategist.position),
         ("instinct", g.agents.instinct.position)] := by
  rw [sceneAgentsOf, sceneJS_buildScene_entities]
  simp only [List.filterMap_append]
  have h1 : (wallEnts g).filterMap agentInfoOf = [] := by
    rw [wallEnts, filterMap_flatMap]
    have hrow : ∀ y, ((List.range g.grid_size).filterMap (fun x =>
        if cellAt g.grid y x == "wall" then
          some (Entity.wallE { x := (x : Int), y := (y : Int) }) else none)).filterMap
        agentInfoOf = [] := by
      intro y
      rw [List.filterMap_filterMap]
      have : ∀ x, ((if cellAt g.grid y x == "wall" then
          some (Entity.wallE { x := (x : Int), y := (y : Int) }) else none).bind agentInfoOf)
          = none := by
        intro x
        cases cellAt g.grid y x == "wall" <;> rfl
      simp only [this]
      exact filterMap_const_none _
    simp only [hrow]
    simp
  have h2 : (g.fuel_stations.map (fun fs => Entity.stationE fs.position)).filterMap agentInfoOf
      = [] := by
    rw [List.filterMap_map]
    exact filterMap_const_none _
  have h3 : (g.light_nodes.map (fun n => Entity.nodeE n.position n.controlled_by)).filterMap
      agentInfoOf = [] := by
    rw [List.filterMap_map]
    exact filterMap_const_none _
  rw [h1, h2, h3]
  simp [agentInfoOf]

lemma mem_wallRow {g : Snapshot} {y : Nat} {p : Pos} :
    p ∈ wallRow g y ↔ ∃ x : Nat, x < g.grid_size ∧ cellAt g.grid y x = "wall" ∧
      p = { x := (x : Int), y := (y : Int) } := by
  simp only [wallRow, List.mem_filterMap, List.mem_range]
  constructor
  · rintro ⟨x, hx, hsome⟩
    by_cases hb : (cellAt g.grid y x == "wall") = true
    · rw [if_pos hb] at hsome
      exact ⟨x, hx, by simpa using hb, (Option.some.inj hsome).symm⟩
    · rw [if_neg hb] at hsome
      exact absurd hsome (by simp)
  · rintro ⟨x, hx, hcell, rfl⟩
    exact ⟨x, hx, by simp [hcell]⟩

lemma mem_wallCells {g : Snapshot} {p : Pos} : p ∈ wallCells g ↔ WallCell g p := by
  simp only [wallCells, List.mem_flatMap, List.mem_range]
  constructor
  · rintro ⟨y, hy, hrow⟩
    obtain ⟨x, hx, hc, rfl⟩ := mem_wallRow.mp hrow
    exact ⟨x, y, rfl, hx, hy, hc⟩
  · rintro ⟨x, y, rfl, hx, hy, hc⟩
    exact ⟨y, hy, mem_wallRow.mpr ⟨x, hx, hc, rfl⟩⟩

lemma wallRow_nodup (g : Snapshot) (y : Nat) : (wallRow g y).Nodup := by
  have key : ∀ (a : Nat) (b : Pos),
      b ∈ (if cellAt g.grid y a == "wall" then
        some ({ x := (a : Int), y := (y : Int) } : Pos) else none) →
      b = { x := (a : Int), y := (y : Int) } := by
    intro a b hb
    by_cases h1 : (cellAt g.grid y a == "wall") = true
    · rw [if_pos h1] at hb
      exact (by simpa using hb : _ = b).symm
    · rw [if_neg h1] at hb
      simp at hb
  refine List.Nodup.filterMap ?_ (List.nodup_range _)
  intro a a' b hb hb'
  have e1 := key a b hb
  have e2 := key a' b hb'
  rw [e1] at e2
  have := congrArg Pos.x e2
  simp only at this
  omega

lemma wallCells_nodup (g : Snapshot) : (wallCells g).Nodup := by
  rw [wallCells, List.nodup_flatMap]
  constructor
  · intro y _
    exact wallRow_nodup g y
  · refine List.Pairwise.imp ?_ (List.pairwise_lt_range _)
    intro a b hlt p hpa hpb
    obtain ⟨x1, _, _, rfl⟩ := mem_wallRow.mp hpa
    obtain ⟨x2, _, _, he⟩ := mem_wallRow.mp hpb
    have := congrArg Pos.y he
    simp only at this
    omega

/-- Claim C6: `buildScene` first discards everything from earlier builds
(the result does not depend on the previous scene), then creates exactly
one wall entity per wall grid cell, one fuel-station entity per
`fuel_stations` element, one light-node entity per `light_nodes` element
carrying its `controlled_by` owner, and exactly two agent entities at the
snapshot positions of the two agents. -/
theorem scene_build_contents (prev prev2 : SceneState) (g : Snapshot) :
    SceneJS.buildScene prev g = SceneJS.buildScene prev2 g ∧
    (wallsOf (SceneJS.buildScene prev g)).Nodup ∧
    (∀ p : Pos, p ∈ wallsOf (SceneJS.buildScene prev g) ↔ WallCell g p) ∧
    stationsOf (SceneJS.buildScene prev g) = g.fuel_stations.map (fun fs => fs.position) ∧
    nodesOf (SceneJS.buildScene prev g)
      = g.light_nodes.map (fun n => (n.position, n.controlled_by)) ∧
    sceneAgentsOf (SceneJS.buildScene prev g) =
      [("strategist", g.agents.strategist.position),
       ("instinct", g.agents.instinct.position)] :=
  ⟨rfl,
   by rw [wallsOf_sceneJS]; exact wallCells_nodup g,
   fun p => by rw [wallsOf_sceneJS]; exact mem_wallCells,
   stationsOf_sceneJS prev g,
   nodesOf_sceneJS prev g,
   sceneAgentsOf_sceneJS prev g⟩

/-! ## part_001 scene characterization -/

/-- The entity (if any) that the part_001 grid switch creates for one cell. -/
def cellEnt (c : String) (p : Pos) : Option Entity :=
  if c == "wall" then some (Entity.wallE p)
  else if c == "door" then some (Entity.doorE p)
  else if c == "window" then some (Entity.windowE p)
  else if c == "tree" then some (Entity.treeE p)
  else if c == "fuel_station" then some (Entity.stationE p)
  else if c == "light_node" then some (Entity.nodeE p none)
  else none

lemma flatMap_toList_eq_filterMap {α β : Type} (f : α → Option β) (l : List α) :
    l.flatMap (fun a => (f a).toList) = l.filterMap f := by
  induction l with
  | nil => rfl
  | cons a t ih => cases h : f a <;> simp [h, ih]

lemma toList_filterMap_opt {β γ : Type} (o : Option β) (σ : β → Option γ) :
    o.toList.filterMap σ = (o.bind σ).toList := by
  cases o with
  | none => rfl
  | some b => cases h : σ b <;> simp [h]

lemma v1_buildCell_entities (acc : SceneState) (c : String) (p : Pos) :
    (SceneV1.buildCell acc c p).entities = acc.entities ++ (cellEnt c p).toList := by
  unfold SceneV1.buildCell cellEnt
  split_ifs <;>
    simp [SceneV1.createWall, SceneV1.createDoor, SceneV1.createWindow, SceneV1.createTree,
      SceneV1.createFuelStation, SceneV1.createLightNode]

lemma v1_row_entities (g : Snapshot) (y : Nat) (xs : List Nat) :
    ∀ acc : SceneState,
      (xs.foldl (fun acc2 x =>
        SceneV1.buildCell acc2 (cellAt g.grid y x) { x := (x : Int), y := (y : Int) }) acc).entities
      = acc.entities ++ xs.flatMap (fun x =>
          (cellEnt (cellAt g.grid y x) { x := (x : Int), y := (y : Int) }).toList) := by
  induction xs with
  | nil => intro acc; simp
  | cons a t ih =>
    intro acc
    rw [List.foldl_cons, ih, v1_buildCell_entities]
    simp [List.append_assoc]

lemma v1_loop_entities (g : Snapshot) (ys : List Nat) :
    ∀ acc : SceneState,
      (ys.foldl (fun acc y =>
        (List.range g.grid_size).foldl (fun acc2 x =>
          SceneV1.buildCell acc2 (cellAt g.grid y x) { x := (x : Int), y := (y : Int) }) acc)
        acc).entities
      = acc.entities ++ ys.flatMap (fun y =>
          (List.range g.grid_size).flatMap (fun x =>
            (cellEnt (cellAt g.grid y x) { x := (x : Int), y := (y : Int) }).toList)) := by
  induction ys with
  | nil => intro acc; simp
  | cons b t ih =>
    intro acc
    rw [List.foldl_cons, ih, v1_row_entities]
    simp [List.append_assoc]

/-- The environment (and marker-cell derived) entities of part_001. -/
def envEnts (g : Snapshot) : List Entity :=
  (List.range g.grid_size).flatMap (fun y =>
    (List.range g.grid_size).flatMap (fun x =>
      (cellEnt (cellAt g.grid y x) { x := (x : Int), y := (y : Int) }).toList))

lemma v1_update_entities (s : SceneState) (p : Pos) (c : Option String) :
    (SceneV1.updateLightNode s p c).entities = s.entities := by
  unfold SceneV1.updateLightNode
  cases lookupPos s.lightNodes p <;> rfl

lemma v1_update_fold_entities (l : List SnapNode) :
    ∀ acc : SceneState,
      (l.foldl (fun a n => SceneV1.updateLightNode a n.position n.controlled_by) acc).entities
      = acc.entities := by
  induction l with
  | nil => intro acc; rfl
  | cons n t ih =>
    intro acc
    rw [List.foldl_cons, ih, v1_update_entities]

/-- Closed form of the entity list built by the part_001 `buildScene`. -/
lemma sceneV1_buildScene_entities (prev : SceneState) (g : Snapshot) :
    (SceneV1.buildScene prev g).entities =
      envEnts g ++ [Entity.agentE "strategist" g.agents.strategist.position,
                    Entity.agentE "instinct" g.agents.instinct.position] := by
  simp only [SceneV1.buildScene]
  rw [v1_update_fold_entities]
  simp only [SceneV1.createAgent]
  rw [v1_loop_entities]
  simp [clearScene, emptyScene, envEnts, List.append_assoc]

lemma wallsOf_sceneV1 (prev : SceneState) (g : Snapshot) :
    wallsOf (SceneV1.buildScene prev g) = wallCells g := by
  rw [wallsOf, sceneV1_buildScene_entities]
  simp only [List.filterMap_append]
  have h1 : (envEnts g).filterMap wallPosOf = wallCells g := by
    rw [envEnts, wallCells, filterMap_flatMap]
    congr 1
    funext y
    rw [filterMap_flatMap]
    have hx : ∀ x : Nat,
        ((cellEnt (cellAt g.grid y x) { x := (x : Int), y := (y : Int) }).toList).filterMap
          wallPosOf
        = ((if cellAt g.grid y x == "wall" then
              some ({ x := (x : Int), y := (y : Int) } : Pos) else none)).toList := by
      intro x
      rw [toList_filterMap_opt]
      congr 1
      unfold cellEnt
      split_ifs <;> rfl
    simp only [hx]
    rw [flatMap_toList_eq_filterMap]
    rfl
  rw [h1]
  simp [wallPosOf]

lemma sceneAgentsOf_sceneV1 (prev : SceneState) (g : Snapshot) :
    sceneAgentsOf (SceneV1.buildScene prev g)
      = [("strategist", g.agents.strategist.position),
         ("instinct", g.agents.instinct.position)] := by
  rw [sceneAgentsOf, sceneV1_buildScene_entities]
  simp only [List.filterMap_append]
  have h1 : (envEnts g).filterMap agentInfoOf = [] := by
    rw [envEnts, filterMap_flatMap]
    have hy : ∀ y : Nat,
        (((List.range g.grid_size).flatMap (fun x =>
          (cellEnt (cellAt g.grid y x) { x := (x : Int), y := (y : Int) }).toList))).filterMap
          agentInfoOf = [] := by
      intro y
      rw [filterMap_flatMap]
      have hx : ∀ x : Nat,
          ((cellEnt (cellAt g.grid y x) { x := (x : Int), y := (y : Int) }).toList).filterMap
            agentInfoOf = [] := by
        intro x
        rw [toList_filterMap_opt]
        have hb : (cellEnt (cellAt g.grid y x)
            { x := (x : Int), y := (y : Int) }).bind agentInfoOf = none := by
          unfold cellEnt
          split_ifs <;> rfl
        rw [hb]
        rfl
      simp only [hx]
      simp
    simp only [hy]
    simp
  rw [h1]
  simp [agentInfoOf]

/-! ## Claim C8: the two scene builders -/

/-- A snapshot on which the two builders provably differ: the fuel-station
list names a station at (0,0) but the grid has no `fuel_station` marker
cell. -/
def ex8 : Snapshot :=
  { grid_size := 1, grid := [["open"]],
    fuel_stations := [{ position := { x := 0, y := 0 }, is_active := true }],
    light_nodes := [],
    agents := { strategist := ⟨{ x := 0, y := 0 }⟩, instinct := ⟨{ x := 0, y := 0 }⟩ } }

/-- Counterexample for C8 as stated: on `ex8` the two builders render
different fuel-station entity sets (scene.js builds one station from the
snapshot list, part_001 builds none because it reads only grid marker
cells). -/
theorem scene_builders_disagree :
    stationsOf (SceneJS.buildScene emptyScene ex8)
      ≠ stationsOf (SceneV1.buildScene emptyScene ex8) := by
  decide

/-- Amended C8: the two builders always agree on the wall cells and on
the two agent entities; fuel stations and light nodes are derived from
different sources and need not coincide. -/
theorem scene_builders_walls_agents_agree (prev prev2 : SceneState) (g : Snapshot) :
    wallsOf (SceneJS.buildScene prev g) = wallsOf (SceneV1.buildScene prev2 g) ∧
    sceneAgentsOf (SceneJS.buildScene prev g) = sceneAgentsOf (SceneV1.buildScene prev2 g) := by
  rw [wallsOf_sceneJS, wallsOf_sceneV1, sceneAgentsOf_sceneJS, sceneAgentsOf_sceneV1]
  exact ⟨rfl, rfl⟩

/-! ## Claim C9: update-function safety and movement target -/

lemma find?_append_none {α : Type} (p : α → Bool) (l1 l2 : List α)
    (h : l1.find? p = none) : (l1 ++ l2).find? p = l2.find? p := by
  induction l1 with
  | nil => rfl
  | cons a t ih =>
    rw [List.cons_append]
    cases hpa : p a with
    | true =>
      rw [List.find?_cons_of_pos _ hpa] at h
      exact absurd h (by simp)
    | false =>
      rw [List.find?_cons_of_neg _ (by simp [hpa])] at h
      rw [List.find?_cons_of_neg _ (by simp [hpa])]
      exact ih h

lemma lookupStr_upsertStr {α : Type} (reg : List (String × α)) (k : String) (v : α) :
    lookupStr (upsertStr reg k v) k = some v := by
  unfold lookupStr upsertStr
  rw [find?_append_none]
  · simp
  · apply List.find?_eq_none.mpr
    intro x hx
    have hxk := (List.mem_filter.mp hx).2
    simp only [decide_eq_true_eq] at hxk ⊢
    exact hxk

/-- At or after the animation duration, the eased interpolation rests
exactly on the target. -/
lemma animPos_done {e : ℚ} (he : SceneJS.duration ≤ e) (start target : ℚ) :
    SceneJS.animPos start target e = target := by
  unfold SceneJS.animPos SceneJS.progressAt SceneJS.eased
  have hd : (0 : ℚ) < SceneJS.duration := by norm_num [SceneJS.duration]
  have hprog : min (e / SceneJS.duration) 1 = 1 := by
    rw [min_eq_right]
    exact (one_le_div hd).mpr he
  rw [hprog]
  norm_num

/-- Claim C9: `updateLightNode` and `updateFuelStation` are no-ops on
unknown positions, `moveAgent` is a no-op on an unknown agent type, and
for a known agent the completed move animation rests the mesh exactly at
the world center of the target cell. -/
theorem scene_update_safety (s : SceneState) (p : Pos) (c : Option String) (b : Bool)
    (ag : String) (t : Pos) (e : ℚ) :
    (lookupPos s.lightNodes p = none → SceneJS.updateLightNode s p c = s) ∧
    (lookupPos s.fuelStations p = none → SceneJS.updateFuelStation s p b = s) ∧
    (lookupStr s.agents ag = none → SceneJS.moveAgent s ag t e = s) ∧
    (∀ a, lookupStr s.agents ag = some a → SceneJS.duration ≤ e →
       lookupStr (SceneJS.moveAgent s ag t e).agents ag =
         some { posX := SceneJS.cellCenter t.x, posZ := SceneJS.cellCenter t.y }) := by
  refine ⟨fun h => ?_, fun h => ?_, fun h => ?_, fun a ha he => ?_⟩
  · unfold SceneJS.updateLightNode
    rw [h]
  · unfold SceneJS.updateFuelStation
    rw [h]
  · unfold SceneJS.moveAgent
    rw [h]
  · have hmv : SceneJS.moveAgent s ag t e =
        { s with
          agents := upsertStr s.agents ag ⟨SceneJS.animPos a.posX (SceneJS.cellCenter t.x) e,
            SceneJS.animPos a.posZ (SceneJS.cellCenter t.y) e⟩ } := by
      unfold SceneJS.moveAgent
      rw [ha]
    rw [hmv]
    show lookupStr (upsertStr s.agents ag _) ag = _
    rw [lookupStr_upsertStr, animPos_done he, animPos_done he]

/-- A one-agent scene for the C9 witness. -/
def exScene : SceneState :=
  { entities := [], agents := [("strategist", { posX := 1, posZ := 1 })],
    fuelStations := [], lightNodes := [], environment := [] }

/-- Witness for C9: an unknown light-node position is ignored, and a
finished move of the known agent lands on the cell center. -/
theorem scene_update_safety_witness :
    SceneJS.updateLightNode exScene { x := 0, y := 0 } none = exScene ∧
    lookupStr (SceneJS.moveAgent exScene "strategist" { x := 2, y := 3 } 300).agents
        "strategist"
      = some { posX := SceneJS.cellCenter 2, posZ := SceneJS.cellCenter 3 } :=
  ⟨(scene_update_safety exScene { x := 0, y := 0 } none true "strategist"
      { x := 2, y := 3 } 300).1 rfl,
   (scene_update_safety exScene { x := 0, y := 0 } none true "strategist"
      { x := 2, y := 3 } 300).2.2.2 { posX := 1, posZ := 1 } rfl
     (by norm_num [SceneJS.duration])⟩

end FuelDominion
